import Mathlib

/-!
Shallow embedding of the AEN node orchestrator (`aen_node/node.py`):
the validated configuration model `NodeConfig`, the constructor
`AENNode.__init__`, and the evolutionary loop `AENNode.start`.

Collaborator calls (perception, cognition, memory, validation, sleep,
clock) are external effects; each run is parameterised by an oracle
giving the outcome of every such call, in program order.  Python
float-valued quantities that the orchestrator only compares and
subtracts (times, scores) are modelled as `Int`.
-/

namespace AEN

/-- Outcome of one awaited collaborator call: a normal return, an
exception carrying a message (any `Exception`, in Python terms), or an
`asyncio.CancelledError` surfacing at that suspension point. -/
inductive PhaseResult (α : Type) where
  | ok (a : α)
  | exn (e : String)
  | cancelled
  deriving Repr, DecidableEq, BEq

/-- Raw (pre-validation) configuration input, mirroring the keyword
arguments accepted by the pydantic model `NodeConfig`. -/
structure RawConfig where
  node_id : String
  node_type : String
  network_region : String := "us-west-2"
  enable_market_validation : Bool := true
  sync_interval_seconds : Int := 30
  max_retry_attempts : Int := 3
  deriving Repr, DecidableEq

/-- `NodeConfig` (node.py lines 21-28): the validated configuration.
Field constraints in the source: `node_id` has `min_length=3,
max_length=50`; `node_type` must match the anchored regex
`(arbitrage_hunter|volatility_sponge|correlation_mapper)`.  The
remaining fields carry no constraint in the source. -/
structure NodeConfig where
  node_id : String
  node_type : String
  network_region : String := "us-west-2"
  enable_market_validation : Bool := true
  sync_interval_seconds : Int := 30
  max_retry_attempts : Int := 3
  deriving Repr, DecidableEq

/-- The anchored regex on `node_type` (node.py line 24) accepts exactly
these three strings. -/
def validNodeType (t : String) : Bool :=
  t == "arbitrage_hunter" || t == "volatility_sponge" || t == "correlation_mapper"

/-- Pydantic validation of `NodeConfig` (node.py lines 21-28): reject
`node_id` whose character length is below 3 or above 50, reject
`node_type` outside the regex, pass every other field through
unchecked. -/
def NodeConfig.validate (r : RawConfig) : Except String NodeConfig :=
  if r.node_id.length < 3 then .error "node_id"
  else if 50 < r.node_id.length then .error "node_id"
  else if !(validNodeType r.node_type) then .error "node_type"
  else .ok { node_id := r.node_id
             node_type := r.node_type
             network_region := r.network_region
             enable_market_validation := r.enable_market_validation
             sync_interval_seconds := r.sync_interval_seconds
             max_retry_attempts := r.max_retry_attempts }

/-- `NodeState` (node.py lines 30-38): immutable snapshot.  Float
fields are modelled as `Int`; the two `Dict` fields as ordered
association lists. -/
structure NodeState where
  timestamp : Int
  fitness_score : Int
  strategy_embedding : List (String × Int)
  market_conditions : List (String × Int)
  network_coherence : Int
  memory_usage_mb : Int
  deriving Repr, DecidableEq

/-- `MemoryPalace(node_id=...)` collaborator, at its construction
boundary. -/
structure MemoryPalace where
  node_id : String
  deriving Repr, DecidableEq

/-- `PerceptionBrain(node_type=...)` collaborator, at its construction
boundary. -/
structure PerceptionBrain where
  node_type : String
  deriving Repr, DecidableEq

/-- `CognitionBrain(memory_palace=...)` collaborator, at its
construction boundary. -/
structure CognitionBrain where
  memory_palace : MemoryPalace
  deriving Repr, DecidableEq

/-- `MarketValidator()` collaborator, at its construction boundary. -/
structure MarketValidator where
  deriving Repr, DecidableEq

/-- The node object: `self.config`, `self.state`, `self.running`
(node.py lines 45-47) and the collaborator attributes set by
`__init__` (lines 53-61). -/
structure AENNode where
  config : NodeConfig
  state : Option NodeState := none
  running : Bool := false
  memory : MemoryPalace
  perception : PerceptionBrain
  cognition : CognitionBrain
  validator : Option MarketValidator
  deriving Repr, DecidableEq

/-- A Python exception value as seen by the caller of `__init__`:
either some original exception (identified by its message) or an
`InitializationError` wrapper (the class the spec says the constructor
raises; the source never constructs it). -/
inductive PyError where
  | err (msg : String)
  | initializationError (msg : String)
  | cancelledError
  deriving Repr, DecidableEq

/-- Whether a `PyError` is the `InitializationError` wrapper. -/
def PyError.isInitializationError : PyError → Bool
  | .initializationError _ => true
  | _ => false

/-- Oracle for `__init__`: which collaborator constructor raises, and
with what message.  `none` means that constructor returns normally. -/
structure InitEnv where
  memoryRaises : Option String := none
  perceptionRaises : Option String := none
  cognitionRaises : Option String := none
  validatorRaises : Option String := none
  deriving Repr, DecidableEq

/-- Observable result of running `__init__`: the constructed node (or
`none` when construction raised), the messages passed to
`_emergency_telegram_alert`, and the exception propagated to the
caller. -/
structure InitResult where
  node : Option AENNode
  alerts : List String
  raised : Option PyError
  deriving Repr, DecidableEq

/-- The `except` clause of `__init__` (node.py lines 67-70): log, send
one alert `f"Node {config.node_id} failed to initialize: {str(e)}"`,
then bare `raise` — the original exception propagates unchanged. -/
def initFailure (config : NodeConfig) (e : String) : InitResult :=
  { node := none
    alerts := ["Node " ++ config.node_id ++ " failed to initialize: " ++ e]
    raised := some (.err e) }

/-- `AENNode.__init__` (node.py lines 43-70): construct `MemoryPalace`,
`PerceptionBrain`, `CognitionBrain` in that order, then
`MarketValidator` only when `enable_market_validation` is set
(otherwise `self.validator = None`); `_initialize_firebase` (lines
72-79) performs no fallible work.  Any constructor exception reaches
the `except` clause modelled by `initFailure`. -/
def AENNode.init (config : NodeConfig) (env : InitEnv) : InitResult :=
  match env.memoryRaises with
  | some e => initFailure config e
  | none =>
    match env.perceptionRaises with
    | some e => initFailure config e
    | none =>
      match env.cognitionRaises with
      | some e => initFailure config e
      | none =>
        if config.enable_market_validation then
          match env.validatorRaises with
          | some e => initFailure config e
          | none =>
            { node := some { config := config
                             state := none
                             running := false
                             memory := { node_id := config.node_id }
                             perception := { node_type := config.node_type }
                             cognition := { memory_palace := { node_id := config.node_id } }
                             validator := some {} }
              alerts := []
              raised := none }
        else
          { node := some { config := config
                           state := none
                           running := false
                           memory := { node_id := config.node_id }
                           perception := { node_type := config.node_type }
                           cognition := { memory_palace := { node_id := config.node_id } }
                           validator := none }
            alerts := []
            raised := none }

/-- First collaborator-constructor exception `__init__` would hit, in
program order (memory, perception, cognition, then validator when the
flag is set). -/
def firstRaise (config : NodeConfig) (env : InitEnv) : Option String :=
  match env.memoryRaises with
  | some e => some e
  | none =>
    match env.perceptionRaises with
    | some e => some e
    | none =>
      match env.cognitionRaises with
      | some e => some e
      | none => if config.enable_market_validation then env.validatorRaises else none

/-- Candidate strategies are opaque to the orchestrator (an arbitrary
structured value); only their identity matters here. -/
abbrev Strategy := Nat

/-- Learning-state values returned by the cognition collaborator are
opaque to the orchestrator. -/
abbrev LearningState := Nat

/-- Observable events of one `start()` run, in program order: each
collaborator call made by a phase, the sleep call with its computed
duration, the `logger.error` of the per-iteration `except` clause, and
the `logger.info` of the `CancelledError` clause. -/
inductive Event where
  | syncNetwork
  | generateStrategy
  | validateStrategy
  | updateCognition
  | updateState
  | sleepFor (duration : Int)
  | errorLogged (msg : String)
  | shutdownLogged
  deriving Repr, DecidableEq, BEq

/-- Whether an event is the sleep call. -/
def Event.isSleep : Event → Bool
  | .sleepFor _ => true
  | _ => false

/-- Whether an event is a `logger.error` record of the per-iteration
error policy. -/
def Event.isErrorLog : Event → Bool
  | .errorLogged _ => true
  | _ => false

/-- Oracle for one loop iteration: the outcome of each awaited phase
call, in program order, plus the elapsed time `cycle_time` the clock
reports at the end of the phase work.  `updateStateRes` carries the
snapshot `_update_state` would install. -/
structure IterEnv where
  generateRes : PhaseResult Strategy
  validateRes : PhaseResult Bool
  updateCognitionRes : PhaseResult LearningState
  syncRes : PhaseResult Unit
  updateStateRes : PhaseResult NodeState
  cycleTime : Int
  sleepRes : PhaseResult Unit
  deriving Repr, DecidableEq

/-- Modelled from the spec: `_validate_strategy` is absent from the
excerpt; per spec §4.5 the gate accepts every strategy when
`self.validator` is `None` and otherwise delegates the boolean
decision to the validation collaborator (here, the oracle). -/
def validateCall (env : IterEnv) (node : AENNode) : PhaseResult Bool :=
  match node.validator with
  | none => .ok true
  | some _ => env.validateRes

/-- Result of the phase work of one iteration (node.py lines 92-106),
before the timing code: normal completion, an exception reaching
`except Exception`, or a cancellation reaching `except CancelledError`,
each carrying the node as of that moment. -/
inductive PhaseOut where
  | ok (n : AENNode)
  | exn (n : AENNode) (e : String)
  | cancelled (n : AENNode)
  deriving Repr, DecidableEq

/-- The node a `PhaseOut` carries. -/
def PhaseOut.nodeOf : PhaseOut → AENNode
  | .ok n => n
  | .exn n _ => n
  | .cancelled n => n

/-- Phase work of one iteration (node.py lines 94-106): generate a
strategy, validate it, and only on acceptance update cognition, sync
with the network, and record the new state.  Only `_update_state`
mutates the node (it replaces `self.state`; modelled from spec §4.6,
its body being absent from the excerpt — the installed snapshot comes
from the oracle).  Each call is logged as an event when it is made,
whether or not it completes. -/
def phaseWork (env : IterEnv) (node : AENNode) : PhaseOut × List Event :=
  match env.generateRes with
  | .cancelled => (.cancelled node, [.generateStrategy])
  | .exn e => (.exn node e, [.generateStrategy])
  | .ok _strat =>
    match validateCall env node with
    | .cancelled => (.cancelled node, [.generateStrategy, .validateStrategy])
    | .exn e => (.exn node e, [.generateStrategy, .validateStrategy])
    | .ok validated =>
      if validated then
        match env.updateCognitionRes with
        | .cancelled =>
            (.cancelled node, [.generateStrategy, .validateStrategy, .updateCognition])
        | .exn e =>
            (.exn node e, [.generateStrategy, .validateStrategy, .updateCognition])
        | .ok _ls =>
          match env.syncRes with
          | .cancelled =>
              (.cancelled node,
               [.generateStrategy, .validateStrategy, .updateCognition, .syncNetwork])
          | .exn e =>
              (.exn node e,
               [.generateStrategy, .validateStrategy, .updateCognition, .syncNetwork])
          | .ok _ =>
            match env.updateStateRes with
            | .cancelled =>
                (.cancelled node,
                 [.generateStrategy, .validateStrategy, .updateCognition,
                  .syncNetwork, .updateState])
            | .exn e =>
                (.exn node e,
                 [.generateStrategy, .validateStrategy, .updateCognition,
                  .syncNetwork, .updateState])
            | .ok st =>
                (.ok { node with state := some st },
                 [.generateStrategy, .validateStrategy, .updateCognition,
                  .syncNetwork, .updateState])
      else (.ok node, [.generateStrategy, .validateStrategy])

/-- How one iteration of the `while` loop ends: continue to the next
iteration (normal completion or an error absorbed by the `except
Exception` clause), or `break` out of the loop (the `except
CancelledError` clause). -/
inductive IterResult where
  | next (n : AENNode)
  | brk (n : AENNode)
  deriving Repr, DecidableEq

/-- The node an `IterResult` carries. -/
def IterResult.nodeOf : IterResult → AENNode
  | .next n => n
  | .brk n => n

/-- One full iteration of the loop body (node.py lines 91-118): phase
work, then the timing rule `if cycle_time < sync_interval_seconds:
await sleep(sync_interval_seconds - cycle_time)` (lines 109-111); a
`CancelledError` (also one surfacing in the sleep) logs and breaks
(lines 113-115); any other exception logs and continues via
`_handle_cycle_error` (lines 116-118), modelled from spec §4.7 as
returning normally without touching the node. -/
def runIteration (env : IterEnv) (node : AENNode) : IterResult × List Event :=
  match phaseWork env node with
  | (.cancelled n, tr) => (.brk n, tr ++ [.shutdownLogged])
  | (.exn n e, tr) => (.next n, tr ++ [.errorLogged e])
  | (.ok n, tr) =>
    if env.cycleTime < n.config.sync_interval_seconds then
      match env.sleepRes with
      | .ok _ =>
          (.next n, tr ++ [.sleepFor (n.config.sync_interval_seconds - env.cycleTime)])
      | .cancelled =>
          (.brk n, tr ++ [.sleepFor (n.config.sync_interval_seconds - env.cycleTime),
                          .shutdownLogged])
      | .exn e =>
          (.next n, tr ++ [.sleepFor (n.config.sync_interval_seconds - env.cycleTime),
                           .errorLogged e])
    else (.next n, tr)

/-- How an observed run of `start()` ends: still inside the `while`
loop when the observation budget (the oracle list) runs out, returned
normally (loop exited), or an exception propagated out of `start()`
uncaught. -/
inductive StartResult where
  | looping (n : AENNode)
  | returned (n : AENNode)
  | raised (n : AENNode) (e : PyError)
  deriving Repr, DecidableEq

/-- The node a `StartResult` carries. -/
def StartResult.nodeOf : StartResult → AENNode
  | .looping n => n
  | .returned n => n
  | .raised n _ => n

/-- Whether `start()` returned normally. -/
def StartResult.returnedNormally : StartResult → Bool
  | .returned _ => true
  | _ => false

/-- The `while self.running:` loop (node.py lines 90-118), run against
a finite list of per-iteration oracles: the condition is checked at
each iteration boundary; `brk` exits the loop and `start()` returns. -/
def runLoop (node : AENNode) (envs : List IterEnv) : StartResult × List Event :=
  if node.running then
    match envs with
    | [] => (.looping node, [])
    | env :: rest =>
      match runIteration env node with
      | (.brk n, tr) => (.returned n, tr)
      | (.next n, tr) =>
        let r := runLoop n rest
        (r.fst, tr ++ r.snd)
  else (.returned node, [])

/-- `AENNode.start` (node.py lines 81-118): set `self.running = True`,
perform one initial `_sync_with_network()` outside any `try` (line 87
— an exception or cancellation there propagates out of `start()`
uncaught), then enter the main loop. -/
def AENNode.start (node : AENNode) (initialSyncRes : PhaseResult Unit)
    (envs : List IterEnv) : StartResult × List Event :=
  match initialSyncRes with
  | .exn e => (.raised { node with running := true } (.err e), [.syncNetwork])
  | .cancelled =>
      (.raised { node with running := true } .cancelledError, [.syncNetwork])
  | .ok _ =>
    let r := runLoop { node with running := true } envs
    (r.fst, .syncNetwork :: r.snd)

/-- Replace the node's configuration, leaving every other attribute
alone (used to state that the loop never reads a given config
field). -/
def withConfig (c : NodeConfig) (node : AENNode) : AENNode :=
  { node with config := c }

/-- Map a function over the node a `PhaseOut` carries. -/
def PhaseOut.mapNode (f : AENNode → AENNode) : PhaseOut → PhaseOut
  | .ok n => .ok (f n)
  | .exn n e => .exn (f n) e
  | .cancelled n => .cancelled (f n)

theorem phaseWork_preserves (env : IterEnv) (node : AENNode) :
    ((phaseWork env node).fst.nodeOf).config = node.config ∧
    ((phaseWork env node).fst.nodeOf).running = node.running ∧
    ((phaseWork env node).fst.nodeOf).validator = node.validator := by
  unfold phaseWork
  repeat' split
  all_goals simp [PhaseOut.nodeOf]

theorem phaseWork_exn_eq (env : IterEnv) (node n : AENNode) (e : String)
    (tr : List Event) (h : phaseWork env node = (.exn n e, tr)) : n = node := by
  unfold phaseWork at h
  repeat' split at h
  all_goals simp_all

theorem phaseWork_cancelled_eq (env : IterEnv) (node n : AENNode)
    (tr : List Event) (h : phaseWork env node = (.cancelled n, tr)) : n = node := by
  unfold phaseWork at h
  repeat' split at h
  all_goals simp_all

theorem phaseWork_trace_sleepFree (env : IterEnv) (node : AENNode) :
    ((phaseWork env node).snd).filter Event.isSleep = [] := by
  unfold phaseWork
  repeat' split
  all_goals simp [Event.isSleep]

theorem phaseWork_trace_errorFree (env : IterEnv) (node : AENNode) :
    ((phaseWork env node).snd).filter Event.isErrorLog = [] := by
  unfold phaseWork
  repeat' split
  all_goals simp [Event.isErrorLog]

theorem phaseWork_trace_head (env : IterEnv) (node : AENNode) :
    ((phaseWork env node).snd).head? = some .generateStrategy := by
  unfold phaseWork
  repeat' split
  all_goals simp

theorem phaseWork_withConfig (env : IterEnv) (node : AENNode) (c : NodeConfig) :
    phaseWork env (withConfig c node) =
      ((phaseWork env node).fst.mapNode (withConfig c), (phaseWork env node).snd) := by
  unfold phaseWork
  have hval : validateCall env (withConfig c node) = validateCall env node := rfl
  rw [hval]
  repeat' split
  all_goals simp [PhaseOut.mapNode, withConfig]

/-- Whether an event is one of the three post-acceptance phases
(learning update, network synchronization, state recording). -/
def Event.isLearnSyncRecord : Event → Bool
  | .updateCognition => true
  | .syncNetwork => true
  | .updateState => true
  | _ => false

/-- Whether an event is the strategy-generation call that opens every
loop iteration. -/
def Event.isGenerate : Event → Bool
  | .generateStrategy => true
  | _ => false

/-- A concrete valid configuration (all defaults) for witnesses. -/
def cfg0 : NodeConfig :=
  { node_id := "abc", node_type := "arbitrage_hunter" }

/-- A concrete node as `__init__` would build it from `cfg0`. -/
def node0 : AENNode :=
  { config := cfg0
    memory := { node_id := "abc" }
    perception := { node_type := "arbitrage_hunter" }
    cognition := { memory_palace := { node_id := "abc" } }
    validator := some {} }

/-- `node0` after `start()` has set the running flag. -/
def nodeRun0 : AENNode :=
  { node0 with running := true }

/-- A concrete snapshot value for witnesses. -/
def st0 : NodeState :=
  { timestamp := 0, fitness_score := 0, strategy_embedding := []
    market_conditions := [], network_coherence := 0, memory_usage_mb := 0 }

/-- Iteration oracle: strategy generation raises `"boom"`. -/
def envExn : IterEnv :=
  { generateRes := .exn "boom", validateRes := .ok true
    updateCognitionRes := .ok 0, syncRes := .ok (), updateStateRes := .ok st0
    cycleTime := 0, sleepRes := .ok () }

/-- Iteration oracle: cancellation surfaces at the strategy-generation
suspension point. -/
def envCancelGen : IterEnv :=
  { generateRes := .cancelled, validateRes := .ok true
    updateCognitionRes := .ok 0, syncRes := .ok (), updateStateRes := .ok st0
    cycleTime := 0, sleepRes := .ok () }

/-- Iteration oracle: validation rejects, cancellation surfaces during
the sleep. -/
def envSleepCancel : IterEnv :=
  { generateRes := .ok 0, validateRes := .ok false
    updateCognitionRes := .ok 0, syncRes := .ok (), updateStateRes := .ok st0
    cycleTime := 5, sleepRes := .cancelled }

/-- Iteration oracle: validation rejects, everything else returns. -/
def envReject : IterEnv :=
  { generateRes := .ok 0, validateRes := .ok false
    updateCognitionRes := .ok 0, syncRes := .ok (), updateStateRes := .ok st0
    cycleTime := 5, sleepRes := .ok () }

/-- Constructor oracle: `MemoryPalace` raises `"boom"`. -/
def envMemBoom : InitEnv :=
  { memoryRaises := some "boom" }

/-- Constructor oracle: every collaborator constructs normally. -/
def envOk : InitEnv := {}

/-- Raw configuration with a zero sync interval (otherwise valid). -/
def rawZeroSync : RawConfig :=
  { node_id := "abc", node_type := "arbitrage_hunter", sync_interval_seconds := 0 }

/-- Raw configuration with a negative sync interval (otherwise valid). -/
def rawNegSync : RawConfig :=
  { node_id := "abc", node_type := "arbitrage_hunter", sync_interval_seconds := -5 }

/-- C7: `NodeConfig` construction succeeds exactly when the node type
is in the fixed enumeration and the node identifier's length lies in
3..50; outside those constraints it fails with a validation error (and
no collaborator exists, since `AENNode.init` consumes only a validated
`NodeConfig`). -/
theorem C7_config_validation (r : RawConfig) :
    (∃ c, NodeConfig.validate r = Except.ok c) ↔
      (3 ≤ r.node_id.length ∧ r.node_id.length ≤ 50 ∧
        validNodeType r.node_type = true) := by
  unfold NodeConfig.validate
  split
  next h =>
    constructor
    · rintro ⟨c, hc⟩
      cases hc
    · rintro ⟨h1, -, -⟩
      omega
  next h =>
    split
    next h2 =>
      constructor
      · rintro ⟨c, hc⟩
        cases hc
      · rintro ⟨-, h2', -⟩
        omega
    next h2 =>
      split
      next h3 =>
        constructor
        · rintro ⟨c, hc⟩
          cases hc
        · rintro ⟨-, -, h3'⟩
          simp [h3'] at h3
      next h3 =>
        constructor
        · intro _
          refine ⟨by omega, by omega, ?_⟩
          simpa using h3
        · intro _
          exact ⟨_, rfl⟩

/-- C8 counterexample: a raw configuration whose sync interval is `0`
passes `NodeConfig` validation — the source puts no positivity
constraint on `sync_interval_seconds`. -/
theorem C8_counterexample_zero_interval :
    NodeConfig.validate rawZeroSync =
      Except.ok { node_id := "abc", node_type := "arbitrage_hunter"
                  sync_interval_seconds := 0 } := by
  rfl

/-- C8 (amended): `NodeConfig` construction does not inspect the sync
interval at all — whenever the node-id and node-type constraints hold,
construction succeeds and passes any integer `sync_interval_seconds`
(zero and negative values included) through unchanged. -/
theorem C8_amended_no_interval_check (r : RawConfig)
    (h1 : 3 ≤ r.node_id.length) (h2 : r.node_id.length ≤ 50)
    (h3 : validNodeType r.node_type = true) :
    NodeConfig.validate r = Except.ok
      { node_id := r.node_id, node_type := r.node_type
        network_region := r.network_region
        enable_market_validation := r.enable_market_validation
        sync_interval_seconds := r.sync_interval_seconds
        max_retry_attempts := r.max_retry_attempts } := by
  unfold NodeConfig.validate
  rw [if_neg (by omega), if_neg (by omega), if_neg (by simp [h3])]

/-- C8 witness: the amended statement evaluated at a concrete raw
configuration with a negative sync interval. -/
theorem C8_amended_no_interval_check_witness :
    3 ≤ rawNegSync.node_id.length ∧ rawNegSync.node_id.length ≤ 50 ∧
    validNodeType rawNegSync.node_type = true ∧
    NodeConfig.validate rawNegSync = Except.ok
      { node_id := rawNegSync.node_id, node_type := rawNegSync.node_type
        network_region := rawNegSync.network_region
        enable_market_validation := rawNegSync.enable_market_validation
        sync_interval_seconds := rawNegSync.sync_interval_seconds
        max_retry_attempts := rawNegSync.max_retry_attempts } :=
  ⟨by decide, by decide, by decide,
    C8_amended_no_interval_check rawNegSync (by decide) (by decide) (by decide)⟩

/-- C5 counterexample: with `MemoryPalace` raising `"boom"` during
construction, exactly one alert is sent but the exception re-raised to
the caller is the original `"boom"`, not an `InitializationError`
wrapper. -/
theorem C5_counterexample_original_reraised :
    (AENNode.init cfg0 envMemBoom).alerts.length = 1 ∧
    (AENNode.init cfg0 envMemBoom).raised = some (PyError.err "boom") ∧
    Option.map PyError.isInitializationError (AENNode.init cfg0 envMemBoom).raised
      = some false := by
  decide

/-- C5 (amended): if constructing any collaborator raises, `__init__`
issues exactly one notification through the alerting interface — its
message contains the node identifier and the error text — and then
re-raises the original exception unchanged (not wrapped as an
`InitializationError`); the node is left unusable. -/
theorem C5_amended_alert_and_reraise (cfg : NodeConfig) (env : InitEnv) (e : String)
    (h : firstRaise cfg env = some e) :
    AENNode.init cfg env = initFailure cfg e := by
  cases hm : env.memoryRaises with
  | some e1 =>
    simp [firstRaise, hm] at h
    subst h
    simp [AENNode.init, hm]
  | none =>
    cases hp : env.perceptionRaises with
    | some e1 =>
      simp [firstRaise, hm, hp] at h
      subst h
      simp [AENNode.init, hm, hp]
    | none =>
      cases hc : env.cognitionRaises with
      | some e1 =>
        simp [firstRaise, hm, hp, hc] at h
        subst h
        simp [AENNode.init, hm, hp, hc]
      | none =>
        cases hf : cfg.enable_market_validation with
        | true =>
          simp [firstRaise, hm, hp, hc, hf] at h
          simp [AENNode.init, hm, hp, hc, hf, h]
        | false =>
          simp [firstRaise, hm, hp, hc, hf] at h

/-- C5 witness: the amended statement evaluated with `MemoryPalace`
raising `"boom"` on the concrete configuration `cfg0`. -/
theorem C5_amended_alert_and_reraise_witness :
    firstRaise cfg0 envMemBoom = some "boom" ∧
    AENNode.init cfg0 envMemBoom = initFailure cfg0 "boom" :=
  ⟨by decide, C5_amended_alert_and_reraise cfg0 envMemBoom "boom" (by decide)⟩

/-- C9: when no collaborator constructor raises, `__init__` builds the
memory, perception, and cognition collaborators unconditionally (with
the configured identifier and type), and fills the validator slot if
and only if the market-validation flag is set. -/
theorem C9_collaborator_construction (cfg : NodeConfig) (env : InitEnv)
    (h1 : env.memoryRaises = none) (h2 : env.perceptionRaises = none)
    (h3 : env.cognitionRaises = none)
    (h4 : cfg.enable_market_validation = true → env.validatorRaises = none) :
    ∃ n, (AENNode.init cfg env).node = some n ∧
      n.memory = { node_id := cfg.node_id } ∧
      n.perception = { node_type := cfg.node_type } ∧
      n.cognition = { memory_palace := { node_id := cfg.node_id } } ∧
      n.validator.isSome = cfg.enable_market_validation ∧
      n.config = cfg ∧
      (AENNode.init cfg env).raised = none := by
  cases hf : cfg.enable_market_validation with
  | true =>
    refine ⟨{ config := cfg, state := none, running := false
              memory := { node_id := cfg.node_id }
              perception := { node_type := cfg.node_type }
              cognition := { memory_palace := { node_id := cfg.node_id } }
              validator := some {} }, ?_, rfl, rfl, rfl, ?_, rfl, ?_⟩
    · simp [AENNode.init, h1, h2, h3, hf, h4 hf]
    · simp [hf]
    · simp [AENNode.init, h1, h2, h3, hf, h4 hf]
  | false =>
    refine ⟨{ config := cfg, state := none, running := false
              memory := { node_id := cfg.node_id }
              perception := { node_type := cfg.node_type }
              cognition := { memory_palace := { node_id := cfg.node_id } }
              validator := none }, ?_, rfl, rfl, rfl, ?_, rfl, ?_⟩
    · simp [AENNode.init, h1, h2, h3, hf]
    · simp [hf]
    · simp [AENNode.init, h1, h2, h3, hf]

/-- C9 witness: the statement evaluated on `cfg0` with every
collaborator constructing normally. -/
theorem C9_collaborator_construction_witness :
    envOk.memoryRaises = none ∧ envOk.perceptionRaises = none ∧
    envOk.cognitionRaises = none ∧ envOk.validatorRaises = none ∧
    (∃ n, (AENNode.init cfg0 envOk).node = some n ∧
      n.memory = { node_id := cfg0.node_id } ∧
      n.perception = { node_type := cfg0.node_type } ∧
      n.cognition = { memory_palace := { node_id := cfg0.node_id } } ∧
      n.validator.isSome = cfg0.enable_market_validation ∧
      n.config = cfg0 ∧
      (AENNode.init cfg0 envOk).raised = none) :=
  ⟨rfl, rfl, rfl, rfl,
    C9_collaborator_construction cfg0 envOk rfl rfl rfl (fun _ => rfl)⟩

theorem runIteration_trace_shape (env : IterEnv) (n : AENNode) :
    ∃ t, (runIteration env n).snd = Event.generateStrategy :: t := by
  have hh := phaseWork_trace_head env n
  rcases hpw : phaseWork env n with ⟨out, tr⟩
  rw [hpw] at hh
  rcases tr with _ | ⟨a, tr'⟩
  · simp at hh
  · simp only [List.head?_cons, Option.some.injEq] at hh
    subst hh
    cases out with
    | cancelled m =>
        exact ⟨tr' ++ [Event.shutdownLogged], by simp [runIteration, hpw]⟩
    | exn m e =>
        exact ⟨tr' ++ [Event.errorLogged e], by simp [runIteration, hpw]⟩
    | ok m =>
      by_cases hlt : env.cycleTime < m.config.sync_interval_seconds
      · cases hs : env.sleepRes with
        | ok a =>
            exact ⟨tr' ++ [Event.sleepFor (m.config.sync_interval_seconds - env.cycleTime)],
              by simp [runIteration, hpw, hlt, hs]⟩
        | cancelled =>
            exact ⟨tr' ++ [Event.sleepFor (m.config.sync_interval_seconds - env.cycleTime),
                           Event.shutdownLogged],
              by simp [runIteration, hpw, hlt, hs]⟩
        | exn e =>
            exact ⟨tr' ++ [Event.sleepFor (m.config.sync_interval_seconds - env.cycleTime),
                           Event.errorLogged e],
              by simp [runIteration, hpw, hlt, hs]⟩
      · exact ⟨tr', by simp [runIteration, hpw, hlt]⟩

theorem runLoop_trace_shape (n : AENNode) (es : List IterEnv) :
    (runLoop n es).snd = [] ∨
      ∃ t, (runLoop n es).snd = Event.generateStrategy :: t := by
  cases hr : n.running with
  | false =>
    unfold runLoop
    simp [hr]
  | true =>
    cases es with
    | nil =>
      unfold runLoop
      simp [hr]
    | cons env rest =>
      obtain ⟨t, ht⟩ := runIteration_trace_shape env n
      right
      rcases hri : runIteration env n with ⟨res, tr⟩
      rw [hri] at ht
      replace ht : tr = Event.generateStrategy :: t := ht
      subst ht
      cases res with
      | brk m =>
        refine ⟨t, ?_⟩
        unfold runLoop
        simp [hr, hri]
      | next m =>
        refine ⟨t ++ (runLoop m rest).snd, ?_⟩
        conv_lhs => rw [runLoop]
        simp [hr, hri]

/-- C6: every run of `start()` performs exactly one network
synchronization, and nothing else, before the first strategy
generation: the event trace up to the first `generateStrategy` event
is exactly `[syncNetwork]`, whatever the oracles say. -/
theorem C6_one_initial_sync (node : AENNode) (initialSyncRes : PhaseResult Unit)
    (envs : List IterEnv) :
    ((AENNode.start node initialSyncRes envs).snd.takeWhile
      (fun ev => !(ev.isGenerate))) = [Event.syncNetwork] := by
  cases initialSyncRes with
  | exn e => simp [AENNode.start, Event.isGenerate]
  | cancelled => simp [AENNode.start, Event.isGenerate]
  | ok u =>
    rcases runLoop_trace_shape { node with running := true } envs with h | ⟨t, h⟩
    · simp [AENNode.start, h, Event.isGenerate]
    · simp [AENNode.start, h, Event.isGenerate]

/-- C10: an exception raised by the initial network synchronization
propagates out of `start()` uncaught (the per-iteration error policy
never sees it, no error is logged), the main loop never begins (no
strategy-generation event exists, whatever the loop oracles are), and
the running flag is left true. -/
theorem C10_initial_sync_exception (node : AENNode) (envs : List IterEnv)
    (e : String) :
    AENNode.start node (.exn e) envs =
      (.raised { node with running := true } (.err e), [Event.syncNetwork]) ∧
    (AENNode.start node (.exn e) envs).fst.nodeOf.running = true ∧
    (AENNode.start node (.exn e) envs).snd.filter Event.isGenerate = [] ∧
    (AENNode.start node (.exn e) envs).snd.filter Event.isErrorLog = [] :=
  ⟨rfl, rfl, rfl, rfl⟩

/-- C4: once the phase work of an iteration completes at elapsed time
`T = cycleTime`, with `I = sync_interval_seconds`: the iteration's only
sleep is a suspension of exactly `I - T` when `T < I`, and when
`I ≤ T` there is no sleep at all and the iteration ends immediately
with the phase-work result. -/
theorem C4_interval_timing (env : IterEnv) (node n : AENNode) (tr : List Event)
    (h : phaseWork env node = (.ok n, tr)) :
    ((runIteration env node).snd.filter Event.isSleep =
      (if env.cycleTime < node.config.sync_interval_seconds
       then [Event.sleepFor (node.config.sync_interval_seconds - env.cycleTime)]
       else [])) ∧
    (node.config.sync_interval_seconds ≤ env.cycleTime →
      runIteration env node = (.next n, tr)) := by
  have hcfg : n.config = node.config := by
    have hp := phaseWork_preserves env node
    rw [h] at hp
    exact hp.1
  have htr : tr.filter Event.isSleep = [] := by
    have hs := phaseWork_trace_sleepFree env node
    rw [h] at hs
    exact hs
  constructor
  · simp only [runIteration, h]
    rw [hcfg]
    by_cases hlt : env.cycleTime < node.config.sync_interval_seconds
    · rw [if_pos hlt, if_pos hlt]
      cases env.sleepRes <;>
        simp [List.filter_append, htr, Event.isSleep]
    · rw [if_neg hlt, if_neg hlt]
      exact htr
  · intro hge
    have hnlt : ¬ env.cycleTime < node.config.sync_interval_seconds :=
      not_lt.mpr hge
    simp only [runIteration, h]
    rw [hcfg, if_neg hnlt]

/-- C4 witness: the statement evaluated on a concrete iteration whose
validation rejects with elapsed time 5 against interval 30. -/
theorem C4_interval_timing_witness :
    phaseWork envReject nodeRun0 =
      (.ok nodeRun0, [Event.generateStrategy, Event.validateStrategy]) ∧
    ((runIteration envReject nodeRun0).snd.filter Event.isSleep =
      (if envReject.cycleTime < nodeRun0.config.sync_interval_seconds
       then [Event.sleepFor
              (nodeRun0.config.sync_interval_seconds - envReject.cycleTime)]
       else [])) ∧
    (nodeRun0.config.sync_interval_seconds ≤ envReject.cycleTime →
      runIteration envReject nodeRun0 =
        (.next nodeRun0, [Event.generateStrategy, Event.validateStrategy])) :=
  ⟨by decide,
    (C4_interval_timing envReject nodeRun0 nodeRun0
      [Event.generateStrategy, Event.validateStrategy] (by decide)).1,
    (C4_interval_timing envReject nodeRun0 nodeRun0
      [Event.generateStrategy, Event.validateStrategy] (by decide)).2⟩

/-- C3: in an iteration whose validation gate rejects the candidate
(the strategy was generated and `_validate_strategy` returned false),
the learning-update, network-synchronization, and state-recording
phases never run (no such event occurs in the iteration's trace) and
the node — in particular its live `NodeState` field — is identical
before and after the iteration. -/
theorem C3_rejection_skips_phases (env : IterEnv) (node : AENNode) (s : Strategy)
    (hg : env.generateRes = .ok s) (hv : validateCall env node = .ok false) :
    (runIteration env node).fst.nodeOf = node ∧
    (runIteration env node).snd.filter Event.isLearnSyncRecord = [] := by
  have hpw : phaseWork env node =
      (.ok node, [Event.generateStrategy, Event.validateStrategy]) := by
    simp [phaseWork, hg, hv]
  simp only [runIteration, hpw]
  by_cases hlt : env.cycleTime < node.config.sync_interval_seconds
  · rw [if_pos hlt]
    cases env.sleepRes <;>
      simp [IterResult.nodeOf, Event.isLearnSyncRecord]
  · rw [if_neg hlt]
    simp [IterResult.nodeOf, Event.isLearnSyncRecord]

/-- C3 witness: the statement evaluated on a concrete rejecting
iteration. -/
theorem C3_rejection_skips_phases_witness :
    envReject.generateRes = .ok 0 ∧
    validateCall envReject nodeRun0 = .ok false ∧
    ((runIteration envReject nodeRun0).fst.nodeOf = nodeRun0 ∧
     (runIteration envReject nodeRun0).snd.filter Event.isLearnSyncRecord = []) :=
  ⟨rfl, by decide, C3_rejection_skips_phases envReject nodeRun0 0 rfl (by decide)⟩

/-- C2 counterexample: with cancellation surfacing at the first
strategy-generation suspension point, `start()` returns normally — but
the running flag is still `true` afterwards: the `except
CancelledError` clause only logs and breaks, it never sets
`self.running = False`. -/
theorem C2_counterexample_running_stays_true :
    ((AENNode.start node0 (.ok ()) [envCancelGen]).fst).returnedNormally = true ∧
    ((AENNode.start node0 (.ok ()) [envCancelGen]).fst).nodeOf.running = true := by
  decide

/-- C2 (amended): when a cancellation signal is received at a
suspension point inside the loop — during a phase call, or during the
sleep — the loop exits and `start()` returns without raising; the
shutdown path touches neither the recorded `NodeState` (a phase
cancellation leaves the state exactly as it was; a sleep cancellation
leaves whatever the completed phase work recorded) nor the running
flag, which therefore remains `true` rather than being set to
`false`. -/
theorem C2_amended_cancellation (env : IterEnv) (node : AENNode)
    (rest : List IterEnv) (hrun : node.running = true) :
    (∀ n2 tr2, phaseWork env node = (.cancelled n2, tr2) →
      (runLoop node (env :: rest)).fst = .returned n2 ∧
      n2.state = node.state ∧ n2.running = true) ∧
    (∀ n1 tr1, phaseWork env node = (.ok n1, tr1) →
      env.cycleTime < node.config.sync_interval_seconds →
      env.sleepRes = .cancelled →
      (runLoop node (env :: rest)).fst = .returned n1 ∧ n1.running = true) := by
  constructor
  · intro n2 tr2 h
    have he : n2 = node := phaseWork_cancelled_eq env node n2 tr2 h
    subst he
    refine ⟨?_, rfl, hrun⟩
    unfold runLoop
    simp [hrun, runIteration, h]
  · intro n1 tr1 h hlt hsleep
    have hcfg : n1.config = node.config := by
      have hp := phaseWork_preserves env node
      rw [h] at hp
      exact hp.1
    have hr : n1.running = node.running := by
      have hp := phaseWork_preserves env node
      rw [h] at hp
      exact hp.2.1
    refine ⟨?_, hr.trans hrun⟩
    have hiter : runIteration env node =
        (.brk n1, tr1 ++ [Event.sleepFor (node.config.sync_interval_seconds - env.cycleTime),
                          Event.shutdownLogged]) := by
      simp only [runIteration, h]
      rw [hcfg, if_pos hlt, hsleep]
    unfold runLoop
    simp [hrun, hiter]

/-- C2 witness: the amended statement evaluated on a concrete
iteration whose validation rejects and whose sleep is cancelled. -/
theorem C2_amended_cancellation_witness :
    nodeRun0.running = true ∧
    ((∀ n2 tr2, phaseWork envSleepCancel nodeRun0 = (.cancelled n2, tr2) →
      (runLoop nodeRun0 [envSleepCancel]).fst = .returned n2 ∧
      n2.state = nodeRun0.state ∧ n2.running = true) ∧
    (∀ n1 tr1, phaseWork envSleepCancel nodeRun0 = (.ok n1, tr1) →
      envSleepCancel.cycleTime < nodeRun0.config.sync_interval_seconds →
      envSleepCancel.sleepRes = .cancelled →
      (runLoop nodeRun0 [envSleepCancel]).fst = .returned n1 ∧ n1.running = true)) :=
  ⟨rfl, C2_amended_cancellation envSleepCancel nodeRun0 [] rfl⟩

theorem runLoop_all_iterations_fail (node : AENNode) (envs : List IterEnv)
    (hrun : node.running = true)
    (hall : ∀ env ∈ envs, ∃ e tr, phaseWork env node = (.exn node e, tr)) :
    (runLoop node envs).fst = .looping node ∧
    ((runLoop node envs).snd.filter Event.isErrorLog).length = envs.length := by
  induction envs with
  | nil =>
    unfold runLoop
    simp [hrun]
  | cons env rest ih =>
    obtain ⟨e, tr, hpw⟩ := hall env (List.mem_cons_self env rest)
    have htr : tr.filter Event.isErrorLog = [] := by
      have hl := phaseWork_trace_errorFree env node
      rw [hpw] at hl
      exact hl
    have hiter : runIteration env node = (.next node, tr ++ [Event.errorLogged e]) := by
      simp [runIteration, hpw]
    have ihr := ih (fun env' h' => hall env' (List.mem_cons_of_mem env h'))
    constructor
    · conv_lhs => rw [runLoop]
      simp [hrun, hiter, ihr.1]
    · conv_lhs => rw [runLoop]
      simp [hrun, hiter, List.filter_append, htr, Event.isErrorLog, ihr.2]

/-- C1: across any number of consecutive iterations in each of which a
phase raises a non-cancellation exception, every error is caught and
logged (one error-log per iteration), the node — running flag
included — is unchanged, and the loop is still running afterwards;
moreover the result is the same for every value of
`max_retry_attempts`, which the loop never consults. -/
theorem C1_error_policy_never_terminates (node : AENNode) (envs : List IterEnv)
    (hrun : node.running = true)
    (hall : ∀ env ∈ envs, ∃ e tr, phaseWork env node = (.exn node e, tr)) :
    (runLoop node envs).fst = .looping node ∧
    ((runLoop node envs).snd.filter Event.isErrorLog).length = envs.length ∧
    ∀ m : Int,
      (runLoop (withConfig { node.config with max_retry_attempts := m } node) envs).fst
        = .looping (withConfig { node.config with max_retry_attempts := m } node) := by
  refine ⟨(runLoop_all_iterations_fail node envs hrun hall).1,
          (runLoop_all_iterations_fail node envs hrun hall).2, ?_⟩
  intro m
  refine (runLoop_all_iterations_fail
      (withConfig { node.config with max_retry_attempts := m } node) envs hrun ?_).1
  intro env he
  obtain ⟨e, tr, hpw⟩ := hall env he
  refine ⟨e, tr, ?_⟩
  rw [phaseWork_withConfig, hpw]
  rfl

/-- C1 witness: the statement evaluated on two consecutive failing
iterations of a concrete running node. -/
theorem C1_error_policy_never_terminates_witness :
    nodeRun0.running = true ∧
    ((runLoop nodeRun0 [envExn, envExn]).fst = .looping nodeRun0 ∧
     ((runLoop nodeRun0 [envExn, envExn]).snd.filter Event.isErrorLog).length = 2 ∧
     ∀ m : Int,
       (runLoop (withConfig { nodeRun0.config with max_retry_attempts := m } nodeRun0)
          [envExn, envExn]).fst
         = .looping (withConfig { nodeRun0.config with max_retry_attempts := m } nodeRun0)) :=
  ⟨rfl, C1_error_policy_never_terminates nodeRun0 [envExn, envExn] rfl (by
    intro env he
    simp only [List.mem_cons, List.not_mem_nil, or_false] at he
    rcases he with h | h <;> subst h <;>
      exact ⟨"boom", [Event.generateStrategy], by decide⟩)⟩

end AEN
